import Mathlib

/-!
Verification of the shipcat manifest pipeline: the layered merge algebra
(`shipcat_filebacked/src/manifest.rs`), the validating builder
(`ManifestSource::build` and its helpers), the Kong gateway tri-state
plugin derivation, and the status patch documents
(`shipcat_cli/src/status.rs`).

Rust `Option<T>` becomes `Option`, `BTreeMap<String, String>`-shaped
ordered maps become total functions `String → Option String` (the map
semantics; ordering is irrelevant to the merged contents), fallible code
returns `Except String`.  Payload types that the merge and the builder
treat as opaque values (probes, volumes, workers, ...) are embedded as
`String` / `List String`: neither the merge nor any claim inspects them.
-/

/-- Ordered string-keyed map (Rust `BTreeMap<String, String>` and friends),
as its lookup function. -/
abbrev Smap := String → Option String

/-- The all-unset map: no keys present. -/
def emptySmap : Smap := fun _ => none

/-- Modelled from the spec (and pinned by `tests::merge` in
`src/shipcat_filebacked/src/manifest.rs`): the `Merge` derive used by
`ManifestOverrides`/`ManifestDefaults` is not under `src/`.  For a plain
optional field the override wins when set, otherwise the base value is
kept. -/
def mergeOpt (base override : Option α) : Option α :=
  match override with
  | some v => some v
  | none => base

/-- Modelled from the spec (and pinned by `tests::merge`): ordered-key
mappings merge to the union of both key sets, the override winning on a
key collision. -/
def mergeMap (base override : Smap) : Smap :=
  fun k => mergeOpt (base k) (override k)

/-- Team entry of the global team directory in `shipcat.conf`
(`conf.teams` in `build_metadata`). -/
structure Team where
  name : String
  support : Option String
  notifications : Option String
deriving DecidableEq

/-- Global configuration: the team directory consulted by `build_metadata`. -/
structure Config where
  teams : List Team
deriving DecidableEq

/-- Region descriptor (`region.name`, `region.namespace`,
`region.environment` as used by `build`). -/
structure Region where
  name : String
  namespace' : String
  environment : String
deriving DecidableEq

/-- Service metadata: the fields `build_metadata` reads and writes
(`team`, `support`, `notifications`). -/
structure Metadata where
  team : String
  support : Option String
  notifications : Option String
deriving DecidableEq

/-- One declared configuration file (`ConfigMappedFile`): `name` is the
template file name, `dest` the mount destination, `value` the resolved
content filled in by `build_configs`. -/
structure ConfigMappedFile where
  name : String
  dest : String
  value : Option String
deriving DecidableEq

/-- Declared config map (`ConfigMap`): name, mount path and file list. -/
structure ConfigMap where
  name : Option String
  mount : String
  files : List ConfigMappedFile
deriving DecidableEq

/-- Modelled from the spec: the `Enabled<KongSource>` wrapper
(`shipcat_filebacked/src/util.rs`, not under `src/`): an optional enabled
flag plus the flattened optional gateway source, merged field-by-field
like every other optional field. -/
structure Enabled where
  enabled : Option Bool
  item : Option String
deriving DecidableEq

/-- Global/regional manifest defaults, deserialized from `shipcat.conf`
etc. (`ManifestDefaults`, manifest.rs lines 80-88). -/
structure ManifestDefaults where
  image_prefix : Option String
  chart : Option String
  replica_count : Option Nat
  env : Smap
  kong : Enabled

/-- Manifest overrides, deserialized from `dev-uk.yml`/`prod.yml` etc.
(`ManifestOverrides`, manifest.rs lines 32-77).  Payload types opaque to
the merge are embedded as `String`/`List String`. -/
structure ManifestOverrides where
  publicly_accessible : Option Bool
  image : Option String
  image_size : Option Nat
  version : Option String
  command : Option (List String)
  data_handling : Option String
  language : Option String
  resources : Option String
  secret_files : Smap
  configs : Option ConfigMap
  vault : Option String
  http_port : Option Nat
  ports : Option (List String)
  external_port : Option Nat
  health : Option String
  dependencies : Option (List String)
  workers : Option (List String)
  sidecars : Option (List String)
  readiness_probe : Option String
  liveness_probe : Option String
  lifecycle : Option String
  rolling_update : Option String
  auto_scaling : Option String
  tolerations : Option (List String)
  host_aliases : Option (List String)
  init_containers : Option (List String)
  volumes : Option (List String)
  volume_mounts : Option (List String)
  persistent_volumes : Option (List String)
  cron_jobs : Option (List String)
  jobs : Option (List String)
  service_annotations : Smap
  pod_annotations : Smap
  labels : Smap
  gate : Option String
  hosts : Option (List String)
  kafka : Option String
  source_ranges : Option (List String)
  rbac : Option (List String)
  defaults : ManifestDefaults

/-- Main manifest, deserialized from `manifest.yml` (`ManifestSource`,
manifest.rs lines 20-29). -/
structure ManifestSource where
  name : Option String
  external : Bool
  disabled : Bool
  regions : List String
  metadata : Option Metadata
  overrides : ManifestOverrides

/-- `BaseManifest` as produced by `build_base`. -/
structure BaseManifest where
  name : String
  regions : List String
  metadata : Metadata
deriving DecidableEq

/-- `SimpleManifest` as produced by `build_simple`. -/
structure SimpleManifest where
  region : String
  enabled : Bool
  external : Bool
  image : Option String
  version : Option String
  kong_apis : List String
  base : BaseManifest
deriving DecidableEq

/-- Merge for the `Enabled` wrapper: field-by-field optional merge.
Modelled from the spec alongside `Enabled` itself. -/
def Enabled.merge (base override : Enabled) : Enabled :=
  { enabled := mergeOpt base.enabled override.enabled,
    item := mergeOpt base.item override.item }

/-- Merge for `ManifestDefaults` (the `Merge` derive on manifest.rs line
80, pinned by `tests::merge`): each optional field takes the override
when set, the `env` map takes the key union with the override winning
collisions. -/
def ManifestDefaults.merge (base override : ManifestDefaults) : ManifestDefaults :=
  { image_prefix := mergeOpt base.image_prefix override.image_prefix,
    chart := mergeOpt base.chart override.chart,
    replica_count := mergeOpt base.replica_count override.replica_count,
    env := mergeMap base.env override.env,
    kong := Enabled.merge base.kong override.kong }

/-- Merge for `ManifestOverrides` (the `Merge` derive on manifest.rs line
32): field-by-field, with the flattened `defaults` merged recursively. -/
def ManifestOverrides.merge (base override : ManifestOverrides) : ManifestOverrides :=
  { publicly_accessible := mergeOpt base.publicly_accessible override.publicly_accessible,
    image := mergeOpt base.image override.image,
    image_size := mergeOpt base.image_size override.image_size,
    version := mergeOpt base.version override.version,
    command := mergeOpt base.command override.command,
    data_handling := mergeOpt base.data_handling override.data_handling,
    language := mergeOpt base.language override.language,
    resources := mergeOpt base.resources override.resources,
    secret_files := mergeMap base.secret_files override.secret_files,
    configs := mergeOpt base.configs override.configs,
    vault := mergeOpt base.vault override.vault,
    http_port := mergeOpt base.http_port override.http_port,
    ports := mergeOpt base.ports override.ports,
    external_port := mergeOpt base.external_port override.external_port,
    health := mergeOpt base.health override.health,
    dependencies := mergeOpt base.dependencies override.dependencies,
    workers := mergeOpt base.workers override.workers,
    sidecars := mergeOpt base.sidecars override.sidecars,
    readiness_probe := mergeOpt base.readiness_probe override.readiness_probe,
    liveness_probe := mergeOpt base.liveness_probe override.liveness_probe,
    lifecycle := mergeOpt base.lifecycle override.lifecycle,
    rolling_update := mergeOpt base.rolling_update override.rolling_update,
    auto_scaling := mergeOpt base.auto_scaling override.auto_scaling,
    tolerations := mergeOpt base.tolerations override.tolerations,
    host_aliases := mergeOpt base.host_aliases override.host_aliases,
    init_containers := mergeOpt base.init_containers override.init_containers,
    volumes := mergeOpt base.volumes override.volumes,
    volume_mounts := mergeOpt base.volume_mounts override.volume_mounts,
    persistent_volumes := mergeOpt base.persistent_volumes override.persistent_volumes,
    cron_jobs := mergeOpt base.cron_jobs override.cron_jobs,
    jobs := mergeOpt base.jobs override.jobs,
    service_annotations := mergeMap base.service_annotations override.service_annotations,
    pod_annotations := mergeMap base.pod_annotations override.pod_annotations,
    labels := mergeMap base.labels override.labels,
    gate := mergeOpt base.gate override.gate,
    hosts := mergeOpt base.hosts override.hosts,
    kafka := mergeOpt base.kafka override.kafka,
    source_ranges := mergeOpt base.source_ranges override.source_ranges,
    rbac := mergeOpt base.rbac override.rbac,
    defaults := ManifestDefaults.merge base.defaults override.defaults }

/-- The all-unset `Enabled` (its `Default`). -/
def emptyEnabled : Enabled := { enabled := none, item := none }

/-- The all-unset `ManifestDefaults` (its `Default`). -/
def emptyDefaults : ManifestDefaults :=
  { image_prefix := none, chart := none, replica_count := none,
    env := emptySmap, kong := emptyEnabled }

/-- The all-unset `ManifestOverrides` (its `Default`): the empty layer. -/
def emptyOverrides : ManifestOverrides :=
  { publicly_accessible := none, image := none, image_size := none,
    version := none, command := none, data_handling := none,
    language := none, resources := none, secret_files := emptySmap,
    configs := none, vault := none, http_port := none, ports := none,
    external_port := none, health := none, dependencies := none,
    workers := none, sidecars := none, readiness_probe := none,
    liveness_probe := none, lifecycle := none, rolling_update := none,
    auto_scaling := none, tolerations := none, host_aliases := none,
    init_containers := none, volumes := none, volume_mounts := none,
    persistent_volumes := none, cron_jobs := none, jobs := none,
    service_annotations := emptySmap, pod_annotations := emptySmap,
    labels := emptySmap, gate := none, hosts := none, kafka := none,
    source_ranges := none, rbac := none, defaults := emptyDefaults }

/-- `ManifestSource::merge_overrides` (manifest.rs lines 269-272). -/
def ManifestSource.merge_overrides (src : ManifestSource) (other : ManifestOverrides) : ManifestSource :=
  { src with overrides := ManifestOverrides.merge src.overrides other }

/-- `ManifestDefaults::merge_source` (manifest.rs lines 304-309). -/
def ManifestDefaults.merge_source (self : ManifestDefaults) (other : ManifestSource) : ManifestSource :=
  { other with overrides :=
      { other.overrides with defaults := ManifestDefaults.merge self other.overrides.defaults } }

/-- Modelled from the spec: the `Require` helper
(`shipcat_filebacked/src/util.rs`, not under `src/`).  The spec makes the
absence of a mandatory field a fatal build error naming the missing
field. -/
def require (o : Option α) (field : String) : Except String α :=
  match o with
  | some v => .ok v
  | none => .error (field ++ " is required")

/-- `ManifestSource::build_metadata` (manifest.rs lines 221-236): require
metadata, resolve the declared team against the global team directory by
exact name, then fill unset support/notifications from the matched
team. -/
def ManifestSource.build_metadata (src : ManifestSource) (conf : Config) : Except String Metadata := do
  let md ← require src.metadata "metadata"
  match conf.teams.find? (fun t => t.name == md.team) with
  | none => .error "The team name must match one of the team names in shipcat.conf"
  | some team =>
    let md1 := if md.support.isNone then { md with support := team.support } else md
    let md2 := if md1.notifications.isNone then { md1 with notifications := team.notifications } else md1
    .ok md2

/-- `ManifestSource::build_base` (manifest.rs lines 197-208): require the
name, build the metadata, keep the region list. -/
def ManifestSource.build_base (src : ManifestSource) (conf : Config) : Except String BaseManifest := do
  let name ← require src.name "name"
  let metadata ← src.build_metadata conf
  .ok { name := name, regions := src.regions, metadata := metadata }

/-- `ManifestSource::build_image` (manifest.rs lines 210-218): explicit
image if set, else synthesize from the image prefix default, else fail.
(The `ImageNameSource` build step, not under `src/`, is the identity on
our opaque image payload.) -/
def ManifestSource.build_image (src : ManifestSource) (service : String) : Except String String :=
  match src.overrides.image with
  | some image => .ok image
  | none =>
    match src.overrides.defaults.image_prefix with
    | some p => .ok (p ++ "/" ++ service)
    | none => .error "Image prefix is not defined"

/-- Modelled from the spec: the `Build` impl for the optional version tag
(`shipcat_filebacked/src/container.rs`, not under `src/`).  The spec
lists `version` among the mandatory fields, so an absent version is a
fatal error naming the field. -/
def buildVersion (v : Option String) : Except String (Option String) :=
  match v with
  | some t => .ok (some t)
  | none => .error "version is required"

/-- Modelled from the spec: the Kong route build step
(`shipcat_filebacked/src/kong.rs`, not under `src/`): a set gateway
source yields one route descriptor for the service, an unset one yields
no route. -/
def buildKongApis (kong : Enabled) (service : String) : List String :=
  match kong.item with
  | some k => [service ++ ":" ++ k]
  | none => []

/-- `ManifestSource::build_simple` (manifest.rs lines 171-195). -/
def ManifestSource.build_simple (src : ManifestSource) (conf : Config) (region : Region) : Except String SimpleManifest := do
  let base ← src.build_base conf
  let image ← src.build_image base.name
  let version ← buildVersion src.overrides.version
  .ok { region := region.name,
        enabled := !src.disabled && base.regions.contains region.name,
        external := src.external,
        image := some image,
        version := version,
        kong_apis := buildKongApis src.overrides.defaults.kong base.name,
        base := base }

/-- Service-specific config path `./services/{svc}/{tmpl}` tried first by
`read_template_file`. -/
def servicePath (svc tmpl : String) : String :=
  "./services/" ++ svc ++ "/" ++ tmpl

/-- Shared template path `./templates/{tmpl}` tried second. -/
def templatePath (tmpl : String) : String :=
  "./templates/" ++ tmpl

/-- `read_template_file` (manifest.rs lines 275-302) over an explicit
filesystem `fs` (path to content): service-specific path first, shared
template path second, otherwise the error naming both attempted paths. -/
def read_template_file (fs : Smap) (svc tmpl : String) : Except String String :=
  let pth := servicePath svc tmpl
  let gpth := templatePath tmpl
  match fs pth with
  | some data => .ok data
  | none =>
    match fs gpth with
    | some data => .ok data
    | none =>
      .error ("Template " ++ tmpl ++ " does not exist in neither " ++ pth ++ " nor " ++ gpth)

/-- `ManifestSource::build_configs` (manifest.rs lines 257-267): resolve
every declared file's content through `read_template_file`. -/
def ManifestSource.build_configs (src : ManifestSource) (fs : Smap) (service : String) : Except String (Option ConfigMap) :=
  match src.overrides.configs with
  | none => .ok none
  | some configs => do
    let files ← configs.files.mapM (fun f => do
      let v ← read_template_file fs service f.name
      pure { f with value := some v })
    .ok (some { configs with files := files })

/-- `ManifestSource::build_data_handling` (manifest.rs lines 239-245).
The `DataHandling::implicits` enrichment, not under `src/`, is opaque on
our payload, so the map is the identity. -/
def ManifestSource.build_data_handling (src : ManifestSource) : Option String :=
  src.overrides.data_handling.map (fun dh => dh)

/-- `ManifestSource::build_kafka` (manifest.rs lines 248-254); the
`Kafka::implicits` enrichment, not under `src/`, is opaque on our
payload. -/
def ManifestSource.build_kafka (src : ManifestSource) (_service : String) (_reg : Region) : Option String :=
  src.overrides.kafka.map (fun kf => kf)

/-- The fully built `Manifest` (the fields set by `build`, manifest.rs
lines 106-166). -/
structure Manifest where
  name : String
  publiclyAccessible : Bool
  external : Bool
  disabled : Bool
  regions : List String
  metadata : Option Metadata
  chart : Option String
  imageSize : Option Nat
  image : Option String
  version : Option String
  command : List String
  dataHandling : Option String
  language : Option String
  resources : Option String
  replicaCount : Option Nat
  env : Smap
  secretFiles : Smap
  configs : Option ConfigMap
  vault : Option String
  httpPort : Option Nat
  ports : List String
  externalPort : Option Nat
  health : Option String
  dependencies : List String
  workers : List String
  sidecars : List String
  readinessProbe : Option String
  livenessProbe : Option String
  lifecycle : Option String
  rollingUpdate : Option String
  autoScaling : Option String
  tolerations : List String
  hostAliases : List String
  initContainers : List String
  volumes : List String
  volumeMounts : List String
  persistentVolumes : List String
  cronJobs : List String
  jobs : List String
  serviceAnnotations : Smap
  podAnnotations : Smap
  labels : Smap
  kongApis : List String
  gate : Option String
  hosts : List String
  kafka : Option String
  sourceRanges : List String
  rbac : List String
  region : String
  environment : String
  namespace' : String
deriving Inhabited

/-- `ManifestSource::build` (manifest.rs lines 92-167) over an explicit
filesystem.  Collection fields default to empty when unset
(`unwrap_or_default`); sub-builders that live outside `src/` act as the
identity on our opaque payloads. -/
def ManifestSource.build (fs : Smap) (src : ManifestSource) (conf : Config) (region : Region) : Except String Manifest := do
  let simple ← src.build_simple conf region
  let name := simple.base.name
  let dataHandling := src.build_data_handling
  let kafka := src.build_kafka name region
  let configs ← src.build_configs fs name
  let ov := src.overrides
  let defaults := ov.defaults
  .ok { name := name,
        publiclyAccessible := ov.publicly_accessible.getD false,
        external := simple.external,
        disabled := src.disabled,
        regions := simple.base.regions,
        metadata := some simple.base.metadata,
        chart := defaults.chart,
        imageSize := (match ov.image_size with | some v => some v | none => some 512),
        image := simple.image,
        version := simple.version,
        command := ov.command.getD [],
        dataHandling := dataHandling,
        language := ov.language,
        resources := ov.resources,
        replicaCount := defaults.replica_count,
        env := defaults.env,
        secretFiles := ov.secret_files,
        configs := configs,
        vault := ov.vault,
        httpPort := ov.http_port,
        ports := ov.ports.getD [],
        externalPort := ov.external_port,
        health := ov.health,
        dependencies := ov.dependencies.getD [],
        workers := ov.workers.getD [],
        sidecars := ov.sidecars.getD [],
        readinessProbe := ov.readiness_probe,
        livenessProbe := ov.liveness_probe,
        lifecycle := ov.lifecycle,
        rollingUpdate := ov.rolling_update,
        autoScaling := ov.auto_scaling,
        tolerations := ov.tolerations.getD [],
        hostAliases := ov.host_aliases.getD [],
        initContainers := ov.init_containers.getD [],
        volumes := ov.volumes.getD [],
        volumeMounts := ov.volume_mounts.getD [],
        persistentVolumes := ov.persistent_volumes.getD [],
        cronJobs := ov.cron_jobs.getD [],
        jobs := ov.jobs.getD [],
        serviceAnnotations := ov.service_annotations,
        podAnnotations := ov.pod_annotations,
        labels := ov.labels,
        kongApis := simple.kong_apis,
        gate := ov.gate,
        hosts := ov.hosts.getD [],
        kafka := kafka,
        sourceRanges := ov.source_ranges.getD [],
        rbac := ov.rbac.getD [],
        region := region.name,
        environment := region.environment,
        namespace' := region.namespace' }

/-- Tri-state plugin field (`PluginBase` in
`shipcat_definitions/structs/kongfig.rs`, used by
`src/shipcat_cli/tests/kong.rs`): explicitly present with attributes,
explicitly removed, or unspecified (inherits). -/
inductive PluginBase (α : Type) where
  | Present : α → PluginBase α
  | Removed : PluginBase α
  | Unspecified : PluginBase α
deriving DecidableEq

/-- Modelled from the spec: the tri-state merge rule of the Kong
derivation (`shipcat_filebacked/src/kong.rs`, not under `src/`):
`Unspecified` always yields to any explicit value from a higher layer;
`Removed` and `Present` both override a lower layer's value. -/
def PluginBase.mergeOver (base override : PluginBase α) : PluginBase α :=
  match override with
  | .Unspecified => base
  | .Present a => .Present a
  | .Removed => .Removed

/-- Fold an ordered list of layers (lowest precedence first) for one
plugin kind, starting from the implicit `Unspecified`. -/
def PluginBase.resolveLayers (layers : List (PluginBase α)) : PluginBase α :=
  layers.foldl PluginBase.mergeOver .Unspecified

/-- An emitted plugin entry of the derived gateway output: `Removed` is
an explicit entry, distinguishable from no entry at all. -/
inductive PluginEntry (α : Type) where
  | Present : α → PluginEntry α
  | Removed : PluginEntry α
deriving DecidableEq

/-- Modelled from the spec: emission of one plugin kind into the derived
gateway output: `Present`/`Removed` become entries, `Unspecified` emits
no entry at all (implicit-absent). -/
def PluginBase.emit : PluginBase α → Option (PluginEntry α)
  | .Present a => some (.Present a)
  | .Removed => some .Removed
  | .Unspecified => none

/-- Header/query/body sets of the request-transformer plugin
(`HeadersQueryBody` used by `src/shipcat_cli/tests/kong.rs`). -/
structure HeadersQueryBody where
  headers : Option (List String)
  querystring : Option (List String)
deriving DecidableEq

/-- The default (all-unset) `HeadersQueryBody`. -/
def HeadersQueryBody.empty : HeadersQueryBody :=
  { headers := none, querystring := none }

/-- Request-transformer plugin configuration (the fields
`assert_upstream_header_transform` in `src/shipcat_cli/tests/kong.rs`
inspects). -/
structure RequestTransformerConfig where
  http_method : Option String
  remove : HeadersQueryBody
  rename : HeadersQueryBody
  append : HeadersQueryBody
  add : HeadersQueryBody
  replace : HeadersQueryBody
deriving DecidableEq

/-- The fixed identifying header injected by the header-transform
derivation. -/
def upstreamServiceHeader (service : String) : String :=
  "Upstream-Service: " ++ service

/-- Modelled from the spec: the header-transform derivation
(`shipcat_filebacked/src/kong.rs`, not under `src/`): the derived
request-transformer injects `Upstream-Service: <service>` into both the
add and the replace header sets, on top of whatever headers were
explicitly configured, and leaves the other sets at their defaults. -/
def deriveRequestTransformer (service : String) (configuredAdd configuredReplace : List String) : RequestTransformerConfig :=
  { http_method := none,
    remove := .empty,
    rename := .empty,
    append := .empty,
    add := { headers := some (upstreamServiceHeader service :: configuredAdd), querystring := none },
    replace := { headers := some (upstreamServiceHeader service :: configuredReplace), querystring := none } }

/-- Modelled from the spec: every route that has at least one plugin
configured gets the header-transform plugin (with no extra explicitly
configured headers), a route with no plugins gets none. -/
def deriveRouteHeaderTransform (service : String) (plugins : List (PluginEntry α)) : Option RequestTransformerConfig :=
  if plugins.isEmpty then none
  else some (deriveRequestTransformer service [] [])

/-- A JSON value, as built by the `json!` literals of
`src/shipcat_cli/src/status.rs`. -/
inductive Json where
  | null : Json
  | str : String → Json
  | bool : Bool → Json
  | num : Nat → Json
  | obj : List (String × Json) → Json

/-- Key lookup in a JSON object. -/
def Json.get : Json → String → Option Json
  | .obj fields, k => fields.lookup k
  | _, _ => none

/-- The keys of a JSON object, in order. -/
def Json.keys : Json → List String
  | .obj fields => fields.map Prod.fst
  | _ => []

/-- Modelled from the spec: a `Condition`
(`shipcat_definitions/src/status.rs`, not under `src/`): a timestamped
success/failure record for one lifecycle action, crediting an applier,
with a machine reason and human message on failure. -/
structure Condition where
  status : Bool
  applier : String
  lastTransitionTime : String
  reason : Option String
  message : Option String
deriving DecidableEq

/-- Modelled from the spec: `Condition::ok(applier)` at a timestamp: a
success condition with no reason or message. -/
def Condition.ok (applier time : String) : Condition :=
  { status := true, applier := applier, lastTransitionTime := time,
    reason := none, message := none }

/-- Modelled from the spec: `Condition::bad(applier, err, reason)` at a
timestamp: a failure condition carrying the machine reason and human
message. -/
def Condition.bad (applier time err message : String) : Condition :=
  { status := false, applier := applier, lastTransitionTime := time,
    reason := some err, message := some message }

/-- An optional string rendered into JSON. -/
def optJson : Option String → Json
  | some s => .str s
  | none => .null

/-- A condition rendered into the JSON patch. -/
def Condition.toJson (c : Condition) : Json :=
  .obj [("status", .bool c.status),
        ("applier", .str c.applier),
        ("lastTransitionTime", .str c.lastTransitionTime),
        ("reason", optJson c.reason),
        ("message", optJson c.message)]

/-- The patch document of `ShipKube::update_generate_true` (status.rs
lines 135-151). -/
def update_generate_true_data (applier now : String) : Json :=
  .obj [("status", .obj [
    ("conditions", .obj [("generated", (Condition.ok applier now).toJson)]),
    ("summary", .obj [
      ("lastSuccessfulGenerate", .str now),
      ("lastAction", .str "Generate")])])]

/-- The patch document of `ShipKube::update_generate_false` (status.rs
lines 171-186). -/
def update_generate_false_data (applier now err reason : String) : Json :=
  .obj [("status", .obj [
    ("conditions", .obj [("generated", (Condition.bad applier now err reason).toJson)]),
    ("summary", .obj [
      ("lastFailureReason", .str reason),
      ("lastAction", .str "Generate")])])]

/-- The patch document of `ShipKube::update_apply_true` (status.rs lines
188-206). -/
def update_apply_true_data (applier now ureason : String) : Json :=
  .obj [("status", .obj [
    ("conditions", .obj [("applied", (Condition.ok applier now).toJson)]),
    ("summary", .obj [
      ("lastApply", .str now),
      ("lastSuccessfulApply", .str now),
      ("lastApplyReason", .str ureason),
      ("lastAction", .str "Apply")])])]

/-- The patch document of `ShipKube::update_apply_false` (status.rs lines
208-226). -/
def update_apply_false_data (applier now ureason err reason : String) : Json :=
  .obj [("status", .obj [
    ("conditions", .obj [("applied", (Condition.bad applier now err reason).toJson)]),
    ("summary", .obj [
      ("lastApply", .str now),
      ("lastFailureReason", .str reason),
      ("lastApplyReason", .str ureason),
      ("lastAction", .str "Apply")])])]

/-- The patch document of `ShipKube::update_rollout_false` (status.rs
lines 228-245). -/
def update_rollout_false_data (applier now err reason : String) : Json :=
  .obj [("status", .obj [
    ("conditions", .obj [("rolledout", (Condition.bad applier now err reason).toJson)]),
    ("summary", .obj [
      ("lastRollout", .str now),
      ("lastFailureReason", .str reason),
      ("lastAction", .str "Rollout")])])]

/-- The patch document of `ShipKube::update_rollout_true` (status.rs
lines 247-266). -/
def update_rollout_true_data (applier now version : String) : Json :=
  .obj [("status", .obj [
    ("conditions", .obj [("rolledout", (Condition.ok applier now).toJson)]),
    ("summary", .obj [
      ("lastRollout", .str now),
      ("lastSuccessfulRollout", .str now),
      ("lastFailureReason", Json.null),
      ("lastAction", .str "Rollout"),
      ("lastSuccessfulRolloutVersion", .str version)])])]

/-- The `conditions` object of a status patch document. -/
def conditionsOf (d : Json) : Option Json :=
  (d.get "status").bind (fun s => s.get "conditions")

/-- The `summary` object of a status patch document. -/
def summaryOf (d : Json) : Option Json :=
  (d.get "status").bind (fun s => s.get "summary")

/-- The spec's contract for merging one plain optional field: the
override's value when the override has it set, otherwise the base's. -/
def OptMergeSpec (base override merged : Option α) : Prop :=
  (∀ v, override = some v → merged = some v) ∧ (override = none → merged = base)

/-- The spec's contract for merging one ordered-key mapping: union of
both key sets, the override wins a collision, no key present in only one
side is dropped. -/
def MapMergeSpec (base override merged : Smap) : Prop :=
  ∀ k, OptMergeSpec (base k) (override k) (merged k)

/-- The `a` env map of `tests::merge` (manifest.rs lines 318-354). -/
def envTestA : Smap :=
  fun k => if k = "a" then some "default-a" else if k = "b" then some "default-b" else none

/-- The `b` env map of `tests::merge`. -/
def envTestB : Smap :=
  fun k => if k = "b" then some "override-b" else if k = "c" then some "override-c" else none

/-- The `a` layer of `tests::merge`. -/
def defaultsTestA : ManifestDefaults :=
  { image_prefix := some "alpha", chart := none, replica_count := some 1,
    env := envTestA, kong := emptyEnabled }

/-- The `b` layer of `tests::merge`. -/
def defaultsTestB : ManifestDefaults :=
  { image_prefix := some "beta", chart := some "default", replica_count := none,
    env := envTestB, kong := emptyEnabled }

/-- An all-unset manifest source. -/
def emptySource : ManifestSource :=
  { name := none, external := false, disabled := false, regions := [],
    metadata := none, overrides := emptyOverrides }

/-- Concrete metadata with unset support and notifications. -/
def mdFoo : Metadata := { team := "platform", support := none, notifications := none }

/-- Concrete team directory entry. -/
def teamPlatform : Team :=
  { name := "platform", support := some "#plat-support", notifications := some "#plat-notify" }

/-- Concrete global config holding just `teamPlatform`. -/
def confTest : Config := { teams := [teamPlatform] }

/-- Concrete region. -/
def regTest : Region := { name := "dev-uk", namespace' := "dev", environment := "dev" }

/-- Concrete source with every mandatory field present, the image left to
the `acme` prefix default, and the image size unset. -/
def srcFoo : ManifestSource :=
  { name := some "foo", external := false, disabled := false, regions := ["dev-uk"],
    metadata := some mdFoo,
    overrides := { emptyOverrides with
      version := some "1.0.0",
      defaults := { emptyDefaults with image_prefix := some "acme" } } }

/-- `srcFoo` with an explicit image size of 256. -/
def srcFooSized : ManifestSource :=
  { srcFoo with overrides := { srcFoo.overrides with image_size := some 256 } }

/-- The manifest built from `srcFoo` (image size unset). -/
def mBuiltFoo : Manifest :=
  match ManifestSource.build emptySmap srcFoo confTest regTest with
  | .ok m => m
  | .error _ => default

/-- The manifest built from `srcFooSized` (image size 256). -/
def mBuiltFooSized : Manifest :=
  match ManifestSource.build emptySmap srcFooSized confTest regTest with
  | .ok m => m
  | .error _ => default

theorem mergeOpt_some_right (b : Option α) (v : α) : mergeOpt b (some v) = some v := rfl

theorem mergeOpt_none_right (b : Option α) : mergeOpt b none = b := rfl

theorem mergeOpt_none_left (o : Option α) : mergeOpt none o = o := by
  cases o <;> rfl

theorem mergeOpt_assoc (a b c : Option α) :
    mergeOpt (mergeOpt a b) c = mergeOpt a (mergeOpt b c) := by
  cases c <;> rfl

theorem mergeMap_assoc (a b c : Smap) :
    mergeMap (mergeMap a b) c = mergeMap a (mergeMap b c) :=
  funext fun k => mergeOpt_assoc (a k) (b k) (c k)

theorem mergeMap_empty_right (m : Smap) : mergeMap m emptySmap = m :=
  funext fun _ => rfl

theorem mergeMap_empty_left (m : Smap) : mergeMap emptySmap m = m :=
  funext fun k => mergeOpt_none_left (m k)

theorem mergeOpt_spec (b o : Option α) : OptMergeSpec b o (mergeOpt b o) := by
  cases o <;> simp [OptMergeSpec, mergeOpt]

theorem mergeMap_spec (b o : Smap) : MapMergeSpec b o (mergeMap b o) :=
  fun k => mergeOpt_spec (b k) (o k)

/-- Sanity: the embedded merge reproduces every assertion of
`tests::merge` in `src/shipcat_filebacked/src/manifest.rs`. -/
theorem merge_matches_source_test :
    ManifestDefaults.image_prefix (ManifestDefaults.merge defaultsTestA defaultsTestB) = some "beta" ∧
    (ManifestDefaults.merge defaultsTestA defaultsTestB).chart = some "default" ∧
    (ManifestDefaults.merge defaultsTestA defaultsTestB).replica_count = some 1 ∧
    (ManifestDefaults.merge defaultsTestA defaultsTestB).env "a" = some "default-a" ∧
    (ManifestDefaults.merge defaultsTestA defaultsTestB).env "b" = some "override-b" ∧
    (ManifestDefaults.merge defaultsTestA defaultsTestB).env "c" = some "override-c" ∧
    (ManifestDefaults.merge defaultsTestA defaultsTestB).env "d" = none :=
  ⟨rfl, rfl, rfl, rfl, rfl, rfl, rfl⟩

theorem enabled_merge_assoc (a b c : Enabled) :
    Enabled.merge (Enabled.merge a b) c = Enabled.merge a (Enabled.merge b c) := by
  simp only [Enabled.merge, mergeOpt_assoc]

theorem enabled_merge_empty_right (a : Enabled) : Enabled.merge a emptyEnabled = a := by
  simp only [Enabled.merge, emptyEnabled, mergeOpt_none_right]

theorem enabled_merge_empty_left (a : Enabled) : Enabled.merge emptyEnabled a = a := by
  simp only [Enabled.merge, emptyEnabled, mergeOpt_none_left]

theorem defaults_merge_assoc (a b c : ManifestDefaults) :
    ManifestDefaults.merge (ManifestDefaults.merge a b) c =
      ManifestDefaults.merge a (ManifestDefaults.merge b c) := by
  simp only [ManifestDefaults.merge, mergeOpt_assoc, mergeMap_assoc, enabled_merge_assoc]

theorem defaults_merge_empty_right (a : ManifestDefaults) :
    ManifestDefaults.merge a emptyDefaults = a := by
  simp only [ManifestDefaults.merge, emptyDefaults, mergeOpt_none_right,
    mergeMap_empty_right, enabled_merge_empty_right]

theorem defaults_merge_empty_left (a : ManifestDefaults) :
    ManifestDefaults.merge emptyDefaults a = a := by
  simp only [ManifestDefaults.merge, emptyDefaults, mergeOpt_none_left,
    mergeMap_empty_left, enabled_merge_empty_left]

theorem overrides_merge_assoc (a b c : ManifestOverrides) :
    ManifestOverrides.merge (ManifestOverrides.merge a b) c =
      ManifestOverrides.merge a (ManifestOverrides.merge b c) := by
  simp only [ManifestOverrides.merge, mergeOpt_assoc, mergeMap_assoc,
    defaults_merge_assoc]

theorem overrides_merge_empty_right (a : ManifestOverrides) :
    ManifestOverrides.merge a emptyOverrides = a := by
  simp only [ManifestOverrides.merge, emptyOverrides, mergeOpt_none_right,
    mergeMap_empty_right, defaults_merge_empty_right]

theorem overrides_merge_empty_left (a : ManifestOverrides) :
    ManifestOverrides.merge emptyOverrides a = a := by
  simp only [ManifestOverrides.merge, emptyOverrides, mergeOpt_none_left,
    mergeMap_empty_left, defaults_merge_empty_left]

/-- C3: the layer merge is associative, and the all-unset layer is both a
left and a right identity of it. -/
theorem c3_merge_assoc_and_identity :
    (∀ A B C : ManifestOverrides,
        ManifestOverrides.merge (ManifestOverrides.merge A B) C =
          ManifestOverrides.merge A (ManifestOverrides.merge B C)) ∧
    (∀ A : ManifestOverrides, ManifestOverrides.merge A emptyOverrides = A) ∧
    (∀ A : ManifestOverrides, ManifestOverrides.merge emptyOverrides A = A) :=
  ⟨overrides_merge_assoc, overrides_merge_empty_right,
    overrides_merge_empty_left⟩

/-- C2: for every pair of layers merged as merge(base, override), each
plain optional field of the result is the override's value when set and
the base's otherwise, and each ordered-key mapping merges to the union of
both key sets with the override winning collisions and no one-sided key
dropped — for every field of `ManifestOverrides` and of the flattened
`ManifestDefaults`. -/
theorem c2_merge_field_precedence (A B : ManifestOverrides) :
    OptMergeSpec A.publicly_accessible B.publicly_accessible (ManifestOverrides.merge A B).publicly_accessible ∧
    OptMergeSpec A.image B.image (ManifestOverrides.merge A B).image ∧
    OptMergeSpec A.image_size B.image_size (ManifestOverrides.merge A B).image_size ∧
    OptMergeSpec A.version B.version (ManifestOverrides.merge A B).version ∧
    OptMergeSpec A.command B.command (ManifestOverrides.merge A B).command ∧
    OptMergeSpec A.data_handling B.data_handling (ManifestOverrides.merge A B).data_handling ∧
    OptMergeSpec A.language B.language (ManifestOverrides.merge A B).language ∧
    OptMergeSpec A.resources B.resources (ManifestOverrides.merge A B).resources ∧
    MapMergeSpec A.secret_files B.secret_files (ManifestOverrides.merge A B).secret_files ∧
    OptMergeSpec A.configs B.configs (ManifestOverrides.merge A B).configs ∧
    OptMergeSpec A.vault B.vault (ManifestOverrides.merge A B).vault ∧
    OptMergeSpec A.http_port B.http_port (ManifestOverrides.merge A B).http_port ∧
    OptMergeSpec A.ports B.ports (ManifestOverrides.merge A B).ports ∧
    OptMergeSpec A.external_port B.external_port (ManifestOverrides.merge A B).external_port ∧
    OptMergeSpec A.health B.health (ManifestOverrides.merge A B).health ∧
    OptMergeSpec A.dependencies B.dependencies (ManifestOverrides.merge A B).dependencies ∧
    OptMergeSpec A.workers B.workers (ManifestOverrides.merge A B).workers ∧
    OptMergeSpec A.sidecars B.sidecars (ManifestOverrides.merge A B).sidecars ∧
    OptMergeSpec A.readiness_probe B.readiness_probe (ManifestOverrides.merge A B).readiness_probe ∧
    OptMergeSpec A.liveness_probe B.liveness_probe (ManifestOverrides.merge A B).liveness_probe ∧
    OptMergeSpec A.lifecycle B.lifecycle (ManifestOverrides.merge A B).lifecycle ∧
    OptMergeSpec A.rolling_update B.rolling_update (ManifestOverrides.merge A B).rolling_update ∧
    OptMergeSpec A.auto_scaling B.auto_scaling (ManifestOverrides.merge A B).auto_scaling ∧
    OptMergeSpec A.tolerations B.tolerations (ManifestOverrides.merge A B).tolerations ∧
    OptMergeSpec A.host_aliases B.host_aliases (ManifestOverrides.merge A B).host_aliases ∧
    OptMergeSpec A.init_containers B.init_containers (ManifestOverrides.merge A B).init_containers ∧
    OptMergeSpec A.volumes B.volumes (ManifestOverrides.merge A B).volumes ∧
    OptMergeSpec A.volume_mounts B.volume_mounts (ManifestOverrides.merge A B).volume_mounts ∧
    OptMergeSpec A.persistent_volumes B.persistent_volumes (ManifestOverrides.merge A B).persistent_volumes ∧
    OptMergeSpec A.cron_jobs B.cron_jobs (ManifestOverrides.merge A B).cron_jobs ∧
    OptMergeSpec A.jobs B.jobs (ManifestOverrides.merge A B).jobs ∧
    MapMergeSpec A.service_annotations B.service_annotations (ManifestOverrides.merge A B).service_annotations ∧
    MapMergeSpec A.pod_annotations B.pod_annotations (ManifestOverrides.merge A B).pod_annotations ∧
    MapMergeSpec A.labels B.labels (ManifestOverrides.merge A B).labels ∧
    OptMergeSpec A.gate B.gate (ManifestOverrides.merge A B).gate ∧
    OptMergeSpec A.hosts B.hosts (ManifestOverrides.merge A B).hosts ∧
    OptMergeSpec A.kafka B.kafka (ManifestOverrides.merge A B).kafka ∧
    OptMergeSpec A.source_ranges B.source_ranges (ManifestOverrides.merge A B).source_ranges ∧
    OptMergeSpec A.rbac B.rbac (ManifestOverrides.merge A B).rbac ∧
    OptMergeSpec A.defaults.image_prefix B.defaults.image_prefix (ManifestDefaults.image_prefix (ManifestOverrides.merge A B).defaults) ∧
    OptMergeSpec A.defaults.chart B.defaults.chart (ManifestOverrides.merge A B).defaults.chart ∧
    OptMergeSpec A.defaults.replica_count B.defaults.replica_count (ManifestOverrides.merge A B).defaults.replica_count ∧
    MapMergeSpec A.defaults.env B.defaults.env (ManifestOverrides.merge A B).defaults.env ∧
    OptMergeSpec A.defaults.kong.enabled B.defaults.kong.enabled (ManifestOverrides.merge A B).defaults.kong.enabled ∧
    OptMergeSpec A.defaults.kong.item B.defaults.kong.item (ManifestOverrides.merge A B).defaults.kong.item :=
  ⟨mergeOpt_spec _ _, mergeOpt_spec _ _, mergeOpt_spec _ _, mergeOpt_spec _ _,
    mergeOpt_spec _ _, mergeOpt_spec _ _, mergeOpt_spec _ _, mergeOpt_spec _ _,
    mergeMap_spec _ _, mergeOpt_spec _ _, mergeOpt_spec _ _, mergeOpt_spec _ _,
    mergeOpt_spec _ _, mergeOpt_spec _ _, mergeOpt_spec _ _, mergeOpt_spec _ _,
    mergeOpt_spec _ _, mergeOpt_spec _ _, mergeOpt_spec _ _, mergeOpt_spec _ _,
    mergeOpt_spec _ _, mergeOpt_spec _ _, mergeOpt_spec _ _, mergeOpt_spec _ _,
    mergeOpt_spec _ _, mergeOpt_spec _ _, mergeOpt_spec _ _, mergeOpt_spec _ _,
    mergeOpt_spec _ _, mergeOpt_spec _ _, mergeOpt_spec _ _, mergeMap_spec _ _,
    mergeMap_spec _ _, mergeMap_spec _ _, mergeOpt_spec _ _, mergeOpt_spec _ _,
    mergeOpt_spec _ _, mergeOpt_spec _ _, mergeOpt_spec _ _, mergeOpt_spec _ _,
    mergeOpt_spec _ _, mergeOpt_spec _ _, mergeMap_spec _ _, mergeOpt_spec _ _,
    mergeOpt_spec _ _⟩

theorem foldl_mergeOver_unspecified {α : Type} (layers : List (PluginBase α))
    (acc : PluginBase α) (h : ∀ l ∈ layers, l = PluginBase.Unspecified) :
    layers.foldl PluginBase.mergeOver acc = acc := by
  induction layers generalizing acc with
  | nil => rfl
  | cons hd tl ih =>
    have hhd : hd = PluginBase.Unspecified := h hd (List.mem_cons_self _ _)
    subst hhd
    rw [List.foldl_cons]
    exact ih acc (fun l hl => h l (List.mem_cons_of_mem _ hl))

/-- C1: plugin entries in the derived gateway output are tri-state: a
base-layer `Present` overridden by a higher-precedence `Removed` yields
`Removed` (not `Present`); a plugin kind no layer mentions yields no
entry at all, distinguishable from `Removed`; `Unspecified` always yields
to an explicit value from a higher layer, and an explicit `Removed` or
`Present` overrides a lower layer's `Present`. -/
theorem c1_plugin_tri_state (α : Type) (a b attrs : α) :
    PluginBase.mergeOver (PluginBase.Present a) (PluginBase.Removed : PluginBase α) =
      PluginBase.Removed ∧
    (PluginBase.resolveLayers [PluginBase.Present a, PluginBase.Removed]).emit =
      some (PluginEntry.Removed : PluginEntry α) ∧
    (∀ layers : List (PluginBase α), (∀ l ∈ layers, l = PluginBase.Unspecified) →
      (PluginBase.resolveLayers layers).emit = none) ∧
    (∀ x : PluginBase α, x ≠ PluginBase.Unspecified →
      ∀ base, PluginBase.mergeOver base x = x) ∧
    PluginBase.mergeOver (PluginBase.Present a) (PluginBase.Present b) = PluginBase.Present b ∧
    PluginBase.mergeOver PluginBase.Unspecified (PluginBase.Present attrs) = PluginBase.Present attrs ∧
    PluginBase.mergeOver PluginBase.Unspecified (PluginBase.Removed : PluginBase α) =
      PluginBase.Removed := by
  refine ⟨rfl, rfl, ?_, ?_, rfl, rfl, rfl⟩
  · intro layers h
    rw [PluginBase.resolveLayers, foldl_mergeOver_unspecified layers _ h]
    rfl
  · intro x hx base
    cases x with
    | Present a => rfl
    | Removed => rfl
    | Unspecified => exact absurd rfl hx

/-- C7: for a route with at least one plugin configured, the derived
header-transform (request transformer) plugin's add and replace header
sets each contain exactly the single header `Upstream-Service: <service>`
when nothing else is explicitly configured, and the other header sets
stay at their defaults. -/
theorem c7_header_transform_injection (α : Type) (service : String)
    (plugins : List (PluginEntry α)) (h : plugins.isEmpty = false) :
    deriveRouteHeaderTransform service plugins =
      some (deriveRequestTransformer service [] []) ∧
    (deriveRequestTransformer service [] []).add.headers =
      some [upstreamServiceHeader service] ∧
    (deriveRequestTransformer service [] []).replace.headers =
      some [upstreamServiceHeader service] ∧
    (deriveRequestTransformer service [] []).remove = HeadersQueryBody.empty ∧
    (deriveRequestTransformer service [] []).append = HeadersQueryBody.empty ∧
    (deriveRequestTransformer service [] []).rename = HeadersQueryBody.empty := by
  refine ⟨?_, rfl, rfl, rfl, rfl, rfl⟩
  simp only [deriveRouteHeaderTransform, h]
  rfl

/-- Witness for C7 at the service `svc` and a one-plugin route. -/
theorem c7_header_transform_injection_witness :
    deriveRouteHeaderTransform "svc" [(PluginEntry.Removed : PluginEntry Nat)] =
      some (deriveRequestTransformer "svc" [] []) ∧
    (deriveRequestTransformer "svc" [] []).add.headers =
      some [upstreamServiceHeader "svc"] ∧
    (deriveRequestTransformer "svc" [] []).replace.headers =
      some [upstreamServiceHeader "svc"] ∧
    (deriveRequestTransformer "svc" [] []).remove = HeadersQueryBody.empty ∧
    (deriveRequestTransformer "svc" [] []).append = HeadersQueryBody.empty ∧
    (deriveRequestTransformer "svc" [] []).rename = HeadersQueryBody.empty :=
  c7_header_transform_injection Nat "svc" [PluginEntry.Removed] rfl

/-- C9: the patch for a successful rollout puts a success condition under
`conditions.rolledout` and the deployed version under
`summary.lastSuccessfulRolloutVersion`, with exactly those key names, and
each of the six lifecycle updates writes exactly one condition key, a
pure function of the action outcome. -/
theorem c9_status_patch_keys (applier now version err reason ureason : String) :
    conditionsOf (update_rollout_true_data applier now version) =
      some (Json.obj [("rolledout", (Condition.ok applier now).toJson)]) ∧
    (Condition.ok applier now).status = true ∧
    (summaryOf (update_rollout_true_data applier now version)).bind
        (fun s => s.get "lastSuccessfulRolloutVersion") = some (Json.str version) ∧
    (conditionsOf (update_generate_true_data applier now)).map Json.keys =
      some ["generated"] ∧
    (conditionsOf (update_generate_false_data applier now err reason)).map Json.keys =
      some ["generated"] ∧
    (conditionsOf (update_apply_true_data applier now ureason)).map Json.keys =
      some ["applied"] ∧
    (conditionsOf (update_apply_false_data applier now ureason err reason)).map Json.keys =
      some ["applied"] ∧
    (conditionsOf (update_rollout_false_data applier now err reason)).map Json.keys =
      some ["rolledout"] ∧
    (conditionsOf (update_rollout_true_data applier now version)).map Json.keys =
      some ["rolledout"] :=
  ⟨rfl, rfl, rfl, rfl, rfl, rfl, rfl, rfl, rfl⟩

theorem except_bind_ok (a : α) (f : α → Except ε β) :
    (Except.ok a >>= f : Except ε β) = f a := rfl

theorem except_bind_error (e : ε) (f : α → Except ε β) :
    (Except.error e >>= f : Except ε β) = Except.error e := rfl

/-- C5 counterexample: with neither an explicit image nor an image
prefix, the build error is `Image prefix is not defined` (capital `I`),
not the exact string `image prefix is not defined` the claim states. -/
theorem c5_image_error_counterexample :
    ManifestSource.build_image emptySource "foo" =
      Except.error "Image prefix is not defined" ∧
    ManifestSource.build_image emptySource "foo" ≠
      Except.error "image prefix is not defined" := by
  constructor
  · rfl
  · intro h
    have h2 : (Except.error "Image prefix is not defined" : Except String String) =
        Except.error "image prefix is not defined" := h
    simp at h2

/-- C5 (amended): an explicit image wins; otherwise a set image prefix
yields `prefix/service-name` (`acme` and `foo` give `acme/foo`); with
neither, the build fails with the error `Image prefix is not defined`. -/
theorem c5_image_resolution :
    (∀ (src : ManifestSource) (service i : String), src.overrides.image = some i →
        ManifestSource.build_image src service = Except.ok i) ∧
    (∀ (src : ManifestSource) (service p : String), src.overrides.image = none →
        src.overrides.defaults.image_prefix = some p →
        ManifestSource.build_image src service = Except.ok (p ++ "/" ++ service)) ∧
    (∀ (src : ManifestSource) (service : String), src.overrides.image = none →
        src.overrides.defaults.image_prefix = none →
        ManifestSource.build_image src service = Except.error "Image prefix is not defined") ∧
    ManifestSource.build_image
      { emptySource with overrides :=
          { emptyOverrides with defaults := { emptyDefaults with image_prefix := some "acme" } } }
      "foo" = Except.ok "acme/foo" := by
  refine ⟨?_, ?_, ?_, rfl⟩
  · intro src service i h
    simp [ManifestSource.build_image, h]
  · intro src service p h1 h2
    simp [ManifestSource.build_image, h1, h2]
  · intro src service h1 h2
    simp [ManifestSource.build_image, h1, h2]

/-- C4: building from a merged source missing a mandatory field (name,
metadata, image-or-image-prefix, version) fails with an error naming the
missing field and returns no partial object; with name supplied and the
other mandatory fields present, the build proceeds. -/
theorem c4_required_fields :
    (∀ (src : ManifestSource) (conf : Config) (region : Region),
      src.name = none →
      src.build_simple conf region = Except.error "name is required") ∧
    (∀ (src : ManifestSource) (conf : Config) (region : Region) (n : String),
      src.name = some n → src.metadata = none →
      src.build_simple conf region = Except.error "metadata is required") ∧
    (∀ (src : ManifestSource) (conf : Config) (region : Region) (n : String)
        (md : Metadata) (team : Team),
      src.name = some n → src.metadata = some md →
      conf.teams.find? (fun t => t.name == md.team) = some team →
      src.overrides.image = none → src.overrides.defaults.image_prefix = none →
      src.build_simple conf region = Except.error "Image prefix is not defined") ∧
    (∀ (src : ManifestSource) (conf : Config) (region : Region) (n i : String)
        (md : Metadata) (team : Team),
      src.name = some n → src.metadata = some md →
      conf.teams.find? (fun t => t.name == md.team) = some team →
      src.overrides.image = some i → src.overrides.version = none →
      src.build_simple conf region = Except.error "version is required") ∧
    (∀ (src : ManifestSource) (conf : Config) (region : Region) (n i v : String)
        (md : Metadata) (team : Team),
      src.name = some n → src.metadata = some md →
      conf.teams.find? (fun t => t.name == md.team) = some team →
      src.overrides.image = some i → src.overrides.version = some v →
      ∃ m, src.build_simple conf region = Except.ok m ∧ m.base.name = n) := by
  refine ⟨?_, ?_, ?_, ?_, ?_⟩
  · intro src conf region h
    simp only [ManifestSource.build_simple, ManifestSource.build_base, require, h,
      except_bind_error]
    rfl
  · intro src conf region n h1 h2
    simp only [ManifestSource.build_simple, ManifestSource.build_base,
      ManifestSource.build_metadata, require, h1, h2, except_bind_ok, except_bind_error]
    rfl
  · intro src conf region n md team h1 h2 h3 h4 h5
    simp only [ManifestSource.build_simple, ManifestSource.build_base,
      ManifestSource.build_metadata, ManifestSource.build_image, require,
      h1, h2, h3, h4, h5, except_bind_ok, except_bind_error]
  · intro src conf region n i md team h1 h2 h3 h4 h5
    simp only [ManifestSource.build_simple, ManifestSource.build_base,
      ManifestSource.build_metadata, ManifestSource.build_image, buildVersion, require,
      h1, h2, h3, h4, h5, except_bind_ok, except_bind_error]
  · intro src conf region n i v md team h1 h2 h3 h4 h5
    simp only [ManifestSource.build_simple, ManifestSource.build_base,
      ManifestSource.build_metadata, ManifestSource.build_image, buildVersion, require,
      h1, h2, h3, h4, h5, except_bind_ok]
    exact ⟨_, rfl, rfl⟩

/-- C6: the declared team must exactly match an entry of the global team
directory or the metadata build fails; on a match, an unset support
contact (or notification target) inherits the team's value, while a set
one is kept regardless of the team default — the result is exactly the
metadata with support and notifications filled by one-level fallback. -/
theorem c6_team_resolution :
    (∀ (src : ManifestSource) (conf : Config) (md : Metadata),
      src.metadata = some md →
      conf.teams.find? (fun t => t.name == md.team) = none →
      src.build_metadata conf =
        Except.error "The team name must match one of the team names in shipcat.conf") ∧
    (∀ (src : ManifestSource) (conf : Config) (md : Metadata) (team : Team),
      src.metadata = some md →
      conf.teams.find? (fun t => t.name == md.team) = some team →
      src.build_metadata conf = Except.ok
        { team := md.team,
          support := mergeOpt team.support md.support,
          notifications := mergeOpt team.notifications md.notifications }) ∧
    (∀ (fallback : Option String) (s : String), mergeOpt fallback (some s) = some s) ∧
    (∀ fallback : Option String, mergeOpt fallback none = fallback) := by
  refine ⟨?_, ?_, fun fallback s => rfl, fun fallback => rfl⟩
  · intro src conf md h1 h2
    simp only [ManifestSource.build_metadata, require, h1, h2, except_bind_ok]
  · intro src conf md team h1 h2
    obtain ⟨mteam, msup, mnotif⟩ := md
    simp only [ManifestSource.build_metadata, require, h1, h2, except_bind_ok]
    cases msup <;> cases mnotif <;> simp [mergeOpt]

theorem except_pure (a : α) : (pure a : Except ε α) = Except.ok a := rfl

/-- C8: each declared configuration file resolves from the
service-specific path first, falls back to the shared template path, and
when neither exists the build fails with the error naming both attempted
paths; `build_configs` threads this through every declared file. -/
theorem c8_config_file_resolution :
    (∀ (fs : Smap) (svc tmpl c : String), fs (servicePath svc tmpl) = some c →
        read_template_file fs svc tmpl = Except.ok c) ∧
    (∀ (fs : Smap) (svc tmpl c : String), fs (servicePath svc tmpl) = none →
        fs (templatePath tmpl) = some c →
        read_template_file fs svc tmpl = Except.ok c) ∧
    (∀ (fs : Smap) (svc tmpl : String), fs (servicePath svc tmpl) = none →
        fs (templatePath tmpl) = none →
        read_template_file fs svc tmpl = Except.error
          ("Template " ++ tmpl ++ " does not exist in neither " ++
            servicePath svc tmpl ++ " nor " ++ templatePath tmpl)) ∧
    (∀ (src : ManifestSource) (fs : Smap) (svc : String),
        src.overrides.configs = none →
        src.build_configs fs svc = Except.ok none) ∧
    (∀ (src : ManifestSource) (fs : Smap) (svc c : String)
        (cm : ConfigMap) (f : ConfigMappedFile),
        src.overrides.configs = some cm → cm.files = [f] →
        fs (servicePath svc f.name) = some c →
        src.build_configs fs svc =
          Except.ok (some { cm with files := [{ f with value := some c }] })) ∧
    (∀ (src : ManifestSource) (fs : Smap) (svc : String)
        (cm : ConfigMap) (f : ConfigMappedFile),
        src.overrides.configs = some cm → cm.files = [f] →
        fs (servicePath svc f.name) = none →
        fs (templatePath f.name) = none →
        src.build_configs fs svc = Except.error
          ("Template " ++ f.name ++ " does not exist in neither " ++
            servicePath svc f.name ++ " nor " ++ templatePath f.name)) := by
  refine ⟨?_, ?_, ?_, ?_, ?_, ?_⟩
  · intro fs svc tmpl c h
    simp only [read_template_file, h]
  · intro fs svc tmpl c h1 h2
    simp only [read_template_file, h1, h2]
  · intro fs svc tmpl h1 h2
    simp only [read_template_file, h1, h2]
  · intro src fs svc h
    simp only [ManifestSource.build_configs, h]
  · intro src fs svc c cm f h1 h2 h3
    simp only [ManifestSource.build_configs, h1, h2, List.mapM_cons, List.mapM_nil,
      read_template_file, h3, except_bind_ok, except_pure]
  · intro src fs svc cm f h1 h2 h3 h4
    simp only [ManifestSource.build_configs, h1, h2, List.mapM_cons, List.mapM_nil,
      read_template_file, h3, h4, except_bind_ok, except_bind_error, except_pure]

/-- C10: when the merged source leaves the image size unset, the built
manifest's `imageSize` silently defaults to `some 512`; when the source
sets it, `imageSize` carries exactly the set value. -/
theorem c10_image_size_default (fs : Smap) (src : ManifestSource) (conf : Config)
    (region : Region) (m : Manifest)
    (h : ManifestSource.build fs src conf region = Except.ok m) :
    (src.overrides.image_size = none → m.imageSize = some 512) ∧
    (∀ v, src.overrides.image_size = some v → m.imageSize = some v) := by
  simp only [ManifestSource.build] at h
  cases hs : ManifestSource.build_simple src conf region with
  | error e => rw [hs] at h; simp [except_bind_error] at h
  | ok simple =>
    rw [hs, except_bind_ok] at h
    cases hc : ManifestSource.build_configs src fs simple.base.name with
    | error e => rw [hc] at h; simp [except_bind_error] at h
    | ok cfg =>
      rw [hc, except_bind_ok] at h
      have hm := Except.ok.inj h
      subst hm
      constructor
      · intro h0
        simp only [h0]
      · intro v h0
        simp only [h0]

/-- Witness for C10: `srcFoo` (image size unset) builds with
`imageSize = some 512`; `srcFooSized` (image size 256) builds with
`imageSize = some 256`. -/
theorem c10_image_size_default_witness :
    ManifestSource.build emptySmap srcFoo confTest regTest = Except.ok mBuiltFoo ∧
    mBuiltFoo.imageSize = some 512 ∧
    ManifestSource.build emptySmap srcFooSized confTest regTest = Except.ok mBuiltFooSized ∧
    mBuiltFooSized.imageSize = some 256 :=
  ⟨rfl,
    (c10_image_size_default emptySmap srcFoo confTest regTest mBuiltFoo rfl).1 rfl,
    rfl,
    (c10_image_size_default emptySmap srcFooSized confTest regTest mBuiltFooSized rfl).2 256 rfl⟩
